import Mathlib

/-!
Verification of the flight-booking MCP server (`src/main.py`) against its
natural-language specification.

Shallow embedding conventions:
* Python `float` prices and integer durations are modeled as `Int`; only
  their ordering matters for every property below.
* A Python `dict` produced by `json.load` is modeled by the inductive `JVal`
  when a claim is about raw documents, and by dedicated structures when the
  claim is about the parsed flight data.
* `datetime.now()` / `uuid.uuid4()` are passed in as explicit arguments.
* A raising lookup (`d["k"]`) is a `none` result of an `Option`-valued
  function; the caller propagates the failure.
-/

/-- Transformed airport object: `name`, `id`, `time` (main.py lines 119-128). -/
structure Airport where
  name : String
  id : String
  time : String
deriving DecidableEq, Repr

/-- One transformed flight segment (main.py lines 114-135). -/
structure Segment where
  airline : String
  flight_number : String
  airplane : String
  travel_class : String
  departure_airport : Airport
  arrival_airport : Airport
  duration : Int
  airline_logo : String
  legroom : String
  overnight : Bool
  plane_and_crew_by : String
  often_delayed_by_over_30_min : Bool
deriving DecidableEq, Repr

/-- The derived `departure` / `arrival` convenience view (main.py lines 147-154). -/
structure Endpoint where
  airport : Airport
  time : String
deriving DecidableEq, Repr

/-- Search parameters as assembled by `search_flights` (main.py lines 251-258).
`currency` is an `Option` because `_transform_flight_data` reads it with
`search_params.get("currency", "USD")`. -/
structure SearchParams where
  departure_id : String
  arrival_id : String
  outbound_date : String
  return_date : Option String
  currency : Option String
  type : Int
deriving DecidableEq, Repr

/-- One transformed flight option (main.py lines 137-155).
`carbon_emissions` is an opaque passthrough mapping, modeled as an
association list. -/
structure FlightOption where
  price : Int
  currency : String
  total_duration : Int
  stops : Nat
  type : String
  airline_logo : String
  segments : List Segment
  carbon_emissions : List (String × Int)
  departure : Endpoint
  arrival : Endpoint
deriving DecidableEq, Repr

/-- The record returned by `_transform_flight_data` (main.py lines 157-164). -/
structure SearchRecord where
  search_id : String
  timestamp : String
  search_params : SearchParams
  flights : List FlightOption
  status : String
deriving DecidableEq, Repr

/-- Raw airport object from the provider; every field may be absent. -/
structure RawAirport where
  name : Option String
  id : Option String
  time : Option String
deriving DecidableEq, Repr

/-- Raw flight segment from the provider; every field may be absent. -/
structure RawSegment where
  airline : Option String
  flight_number : Option String
  airplane : Option String
  travel_class : Option String
  departure_airport : Option RawAirport
  arrival_airport : Option RawAirport
  duration : Option Int
  airline_logo : Option String
  legroom : Option String
  overnight : Option Bool
  plane_and_crew_by : Option String
  often_delayed_by_over_30_min : Option Bool
deriving DecidableEq, Repr

/-- Raw itinerary from the provider. `flights = none` models an absent
`"flights"` key, `some []` an empty segment list. -/
structure RawItinerary where
  flights : Option (List RawSegment)
  price : Option Int
  total_duration : Option Int
  type : Option String
  airline_logo : Option String
  carbon_emissions : Option (List (String × Int))
deriving DecidableEq, Repr

/-- Raw provider payload: the two parallel itinerary lists (main.py line 106). -/
structure RawResponse where
  best_flights : Option (List RawItinerary)
  other_flights : Option (List RawItinerary)
deriving DecidableEq, Repr

/-- `segment["departure_airport"]["name" / "id" / "time"]` (main.py lines
119-128): every lookup raises on absence, so the result is `none` unless the
airport object and all three required fields are present. -/
def transformAirport : Option RawAirport → Option Airport
  | none => none
  | some a =>
    match a.name, a.id, a.time with
    | some n, some i, some t => some { name := n, id := i, time := t }
    | _, _, _ => none

/-- Transformation of one raw segment (main.py lines 114-135): the nested
airport objects are required, every other field defaults via `.get`. -/
def transformSegment (s : RawSegment) : Option Segment :=
  match transformAirport s.departure_airport, transformAirport s.arrival_airport with
  | some dep, some arr =>
    some { airline := s.airline.getD ""
           flight_number := s.flight_number.getD ""
           airplane := s.airplane.getD ""
           travel_class := s.travel_class.getD ""
           departure_airport := dep
           arrival_airport := arr
           duration := s.duration.getD 0
           airline_logo := s.airline_logo.getD ""
           legroom := s.legroom.getD ""
           overnight := s.overnight.getD false
           plane_and_crew_by := s.plane_and_crew_by.getD ""
           often_delayed_by_over_30_min := s.often_delayed_by_over_30_min.getD false }
  | _, _ => none

/-- Transformation of one non-dropped itinerary whose segment list is
`s0 :: rest` (main.py lines 112-155). `departure` mirrors the first
transformed segment, `arrival` the last one (`flight_segments[-1]` is
`rest.getLastD f0` after transformation). -/
def transformItinerary (params : SearchParams) (it : RawItinerary)
    (s0 : RawSegment) (rest : List RawSegment) : Option FlightOption :=
  match transformSegment s0, rest.mapM transformSegment with
  | some f0, some frest =>
    some { price := it.price.getD 0
           currency := params.currency.getD "USD"
           total_duration := it.total_duration.getD 0
           stops := (s0 :: rest).length - 1
           type := it.type.getD ""
           airline_logo := it.airline_logo.getD ""
           segments := f0 :: frest
           carbon_emissions := it.carbon_emissions.getD []
           departure := { airport := f0.departure_airport
                          time := f0.departure_airport.time }
           arrival := { airport := (frest.getLastD f0).arrival_airport
                        time := (frest.getLastD f0).arrival_airport.time } }
  | _, _ => none

/-- The main transformation loop (main.py lines 108-155): itineraries whose
segment list is absent or empty are skipped (`continue`); a failing segment
aborts the whole transform (an uncaught exception). -/
def transformFlights (params : SearchParams) : List RawItinerary → Option (List FlightOption)
  | [] => some []
  | it :: more =>
    match it.flights with
    | none => transformFlights params more
    | some [] => transformFlights params more
    | some (s0 :: rest) =>
      match transformItinerary params it s0 rest, transformFlights params more with
      | some f, some fs => some (f :: fs)
      | _, _ => none

/-- `best_flights + other_flights` with absent lists defaulting to `[]`
(main.py line 106). -/
def allFlights (resp : RawResponse) : List RawItinerary :=
  resp.best_flights.getD [] ++ resp.other_flights.getD []

/-- `FlightBookingServer._transform_flight_data` (main.py lines 92-164).
The fresh uuid and the current time are passed as `search_id` / `timestamp`. -/
def transform_flight_data (resp : RawResponse) (params : SearchParams)
    (search_id timestamp : String) : Option SearchRecord :=
  match transformFlights params (allFlights resp) with
  | some fs =>
    some { search_id := search_id
           timestamp := timestamp
           search_params := params
           flights := fs
           status := "success" }
  | none => none

/-- The `search_params` dict built by `search_flights` (main.py lines 251-258).
Line 256 writes the literal `"INR"` into the `currency` slot; the `currency`
argument of the tool is not consulted there. -/
def mkSearchParams (departure_id arrival_id outbound_date : String)
    (return_date : Option String) (currency : String) : SearchParams :=
  { departure_id := departure_id
    arrival_id := arrival_id
    outbound_date := outbound_date
    return_date := return_date
    currency := some "INR"
    type := if return_date.isSome then 1 else 2 }

/-- The success dict returned by `search_flights` (main.py lines 290-297). -/
structure SearchSuccess where
  status : String
  search_id : String
  flights_count : Nat
  currency : String
  path : String
deriving DecidableEq, Repr

/-- Assembly of the `search_flights` success result from the transformed data
(main.py lines 290-297): `flights_count` is `len(transformed_data["flights"])`,
`currency` echoes the tool argument. -/
def searchSuccess (transformed_data : SearchRecord) (currency : String)
    (temp_dir : String) : SearchSuccess :=
  { status := "success"
    search_id := transformed_data.search_id
    flights_count := transformed_data.flights.length
    currency := currency
    path := temp_dir }

/-- The parsed content of one stored search document as `get_search_results`
returns it to `filter_flights`: the save-time wrapper `{timestamp, results}`
(main.py lines 39-42 and 58-60). -/
structure StoredSearch where
  timestamp : String
  results : SearchRecord
deriving DecidableEq, Repr

/-- Filter specification: the recognized optional keys of the `filters` dict
of `filter_flights` (main.py lines 306-392). A `none` field models an absent
key (`"max_price" in filters` is false). -/
structure FilterSpec where
  search_id : String
  max_price : Option Int
  max_duration : Option Int
  max_stops : Option Nat
  preferred_airlines : Option (List String)
  departure_time_range : Option (String × String)
  sort_by : Option String
  sort_order : Option String
deriving DecidableEq, Repr

/-- The conjunction of the active filter predicates (main.py lines 343-373):
a flight is appended to `filtered_flights` iff no active filter `continue`s
past it. -/
def passesFilters (filters : FilterSpec) (flight : FlightOption) : Bool :=
  (match filters.max_price with
   | none => true
   | some p => decide (flight.price ≤ p)) &&
  (match filters.max_duration with
   | none => true
   | some d => decide (flight.total_duration ≤ d)) &&
  (match filters.max_stops with
   | none => true
   | some s => decide (flight.stops ≤ s)) &&
  (match filters.preferred_airlines with
   | none => true
   | some pa => flight.segments.any (fun seg => pa.contains seg.airline)) &&
  (match filters.departure_time_range with
   | none => true
   | some r => decide (r.1 ≤ flight.departure.time) && decide (flight.departure.time ≤ r.2))

/-- Python `list.sort(key=k, reverse=rev)` comparison: a stable sort by `k`,
descending when `rev` (CPython keeps equal elements in original order for
both directions). -/
def pyLe {β : Type} [LinearOrder β] (key : FlightOption → β) (rev : Bool)
    (a b : FlightOption) : Bool :=
  if rev then decide (key b ≤ key a) else decide (key a ≤ key b)

/-- The sorting step of `filter_flights` (main.py lines 375-385): only the
three recognized `sort_by` values sort; anything else leaves the filtered
list untouched. -/
def applySort (filters : FilterSpec) (l : List FlightOption) : List FlightOption :=
  match filters.sort_by with
  | none => l
  | some sort_key =>
    let rev := filters.sort_order.getD "asc" == "desc"
    if sort_key = "price" then
      l.mergeSort (pyLe (fun x => x.price) rev)
    else if sort_key = "duration" then
      l.mergeSort (pyLe (fun x => x.total_duration) rev)
    else if sort_key = "departure_time" then
      l.mergeSort (pyLe (fun x => x.departure.time) rev)
    else l

/-- A value of the result dict of `filter_flights`: a string, a count, a
flight list, or the storage `Path` (main.py lines 331-335 and 387-392). -/
inductive DVal where
  | str (s : String)
  | num (n : Nat)
  | flights (l : List FlightOption)
  | path (p : String)
deriving DecidableEq, Repr

/-- The `filter_flights` tool (main.py lines 305-392). `store` models
`FlightSearchStorage.get_search_results` as a lookup from search id to the
parsed stored document; the result is the returned dict as an ordered list
of key-value pairs. -/
def filter_flights (filters : FilterSpec) (store : String → Option StoredSearch) :
    List (String × DVal) :=
  match store filters.search_id with
  | none =>
    [("status", DVal.str "error"),
     ("error", DVal.str "No search results found for the provided search ID")]
  | some flights_data =>
    let flights := flights_data.results.flights
    let filtered_flights := applySort filters (flights.filter (passesFilters filters))
    [("filtered_count", DVal.num filtered_flights.length),
     ("total_count", DVal.num flights.length),
     ("flights", DVal.flights filtered_flights),
     ("storage", DVal.path ("search_" ++ filters.search_id ++ ".json"))]

/-- The `"flights"` entry of a `filter_flights` result (first match, `[]` when
absent or not a flight list). -/
def outFlights : List (String × DVal) → List FlightOption
  | [] => []
  | (k, v) :: rest =>
    if k = "flights" then
      match v with
      | DVal.flights l => l
      | _ => []
    else outFlights rest

/-- A JSON value, as written by `json.dump` and reread by `json.load`. -/
inductive JVal where
  | jnull
  | jbool (b : Bool)
  | jnum (n : Int)
  | jstr (s : String)
  | jarr (xs : List JVal)
  | jobj (fields : List (String × JVal))

/-- First-match lookup in the field list of a JSON object. -/
def lookupField : List (String × JVal) → String → Option JVal
  | [], _ => none
  | (k, v) :: rest, key => if key = k then some v else lookupField rest key

/-- First-match association lookup on a JSON object; `none` on non-objects. -/
def JVal.getField : JVal → String → Option JVal
  | JVal.jobj fields, k => lookupField fields k
  | _, _ => none

/-- The storage directory: file name to file content. -/
def FileStore : Type := String → Option JVal

/-- `FlightSearchStorage.save_search_results` (main.py lines 29-42): writes
`{timestamp: now, results: results}` to `search_<id>.json`, overwriting. -/
def save_search_results (fs : FileStore) (search_id : String) (now : String)
    (results : JVal) : FileStore :=
  fun name =>
    if name = "search_" ++ search_id ++ ".json" then
      some (JVal.jobj [("timestamp", JVal.jstr now), ("results", results)])
    else fs name

/-- `FlightSearchStorage.get_search_results` (main.py lines 44-61): returns
the whole parsed document, or `none` when the file does not exist. -/
def get_search_results (fs : FileStore) (search_id : String) : Option JVal :=
  fs ("search_" ++ search_id ++ ".json")

/-- One `search_*.json` file as seen by the cleanup sweep.
`parsedTimestamp = none` models a failing open / `json.load` /
`fromisoformat` (the timestamp is in epoch seconds otherwise); `unlinkOk`
models whether `file.unlink()` succeeds. -/
structure StoredFile where
  parsedTimestamp : Option Int
  unlinkOk : Bool
deriving DecidableEq, Repr

/-- `FlightSearchStorage.cleanup_old_searches` (main.py lines 63-79): for each
file, parse the stored timestamp and unlink when strictly older than
`max_age_hours * 3600` seconds; any per-file exception is swallowed
(`continue`) and leaves that file in place. The result is the list of
surviving files. -/
def cleanup_old_searches (current_time : Int) (max_age_hours : Int) :
    List StoredFile → List StoredFile
  | [] => []
  | f :: files =>
    match f.parsedTimestamp with
    | none => f :: cleanup_old_searches current_time max_age_hours files
    | some t =>
      if current_time - t > max_age_hours * 3600 then
        if f.unlinkOk then
          cleanup_old_searches current_time max_age_hours files
        else
          f :: cleanup_old_searches current_time max_age_hours files
      else
        f :: cleanup_old_searches current_time max_age_hours files

/-- The survival predicate of one file under the sweep: kept iff its
timestamp is unreadable, or it is young enough, or its deletion failed. -/
def cleanupKeeps (current_time : Int) (max_age_hours : Int) (f : StoredFile) : Bool :=
  match f.parsedTimestamp with
  | none => true
  | some t =>
    if current_time - t > max_age_hours * 3600 then !f.unlinkOk else true

lemma getLast?_cons_getLastD {α : Type} (a : α) (l : List α) :
    (a :: l).getLast? = some (l.getLastD a) := by
  induction l generalizing a with
  | nil => rfl
  | cons b t ih => rw [List.getLast?_cons_cons, ih b, List.getLastD_cons]

lemma cleanup_eq_filter (now h : Int) (files : List StoredFile) :
    cleanup_old_searches now h files = files.filter (cleanupKeeps now h) := by
  induction files with
  | nil => rfl
  | cons f rest ih =>
    rw [List.filter_cons]
    cases hp : f.parsedTimestamp with
    | none =>
      have hk : cleanupKeeps now h f = true := by simp [cleanupKeeps, hp]
      rw [hk]
      simp [cleanup_old_searches, hp, ih]
    | some t =>
      by_cases hold : now - t > h * 3600
      · cases hu : f.unlinkOk with
        | false =>
          have hk : cleanupKeeps now h f = true := by simp [cleanupKeeps, hp, hold, hu]
          rw [hk]
          simp [cleanup_old_searches, hp, hold, hu, ih]
        | true =>
          have hk : cleanupKeeps now h f = false := by simp [cleanupKeeps, hp, hold, hu]
          rw [hk]
          simp [cleanup_old_searches, hp, hold, hu, ih]
      · have hk : cleanupKeeps now h f = true := by simp [cleanupKeeps, hp, hold]
        rw [hk]
        simp [cleanup_old_searches, hp, hold, ih]

lemma pyLe_trans {β : Type} [LinearOrder β] (key : FlightOption → β) (rev : Bool) :
    ∀ a b c, pyLe key rev a b → pyLe key rev b c → pyLe key rev a c := by
  intro a b c hab hbc
  cases rev
  all_goals simp [pyLe] at hab hbc ⊢
  · exact le_trans hab hbc
  · exact le_trans hbc hab

lemma pyLe_total {β : Type} [LinearOrder β] (key : FlightOption → β) (rev : Bool) :
    ∀ a b, pyLe key rev a b || pyLe key rev b a := by
  intro a b
  cases rev <;> simp [pyLe] <;> exact le_total _ _

lemma mem_applySort (filters : FilterSpec) (l : List FlightOption) (f : FlightOption) :
    f ∈ applySort filters l ↔ f ∈ l := by
  unfold applySort
  cases filters.sort_by with
  | none => exact Iff.rfl
  | some k =>
    by_cases h1 : k = "price"
    · simp [h1, List.mem_mergeSort]
    · by_cases h2 : k = "duration"
      · simp [h1, h2, List.mem_mergeSort]
      · by_cases h3 : k = "departure_time"
        · simp [h1, h2, h3, List.mem_mergeSort]
        · simp [h1, h2, h3]

lemma length_applySort (filters : FilterSpec) (l : List FlightOption) :
    (applySort filters l).length = l.length := by
  unfold applySort
  cases filters.sort_by with
  | none => rfl
  | some k =>
    by_cases h1 : k = "price"
    · simp [h1, List.length_mergeSort]
    · by_cases h2 : k = "duration"
      · simp [h1, h2, List.length_mergeSort]
      · by_cases h3 : k = "departure_time"
        · simp [h1, h2, h3, List.length_mergeSort]
        · simp [h1, h2, h3]

/-! Concrete sample data, used to instantiate the theorems below.
The two-segment itinerary mirrors the ORD → DFW → LAX example of the spec. -/

def rawApORD : RawAirport :=
  { name := some "O Hare Intl", id := some "ORD", time := some "2026-11-01 06:00" }

def rawApDFWArr : RawAirport :=
  { name := some "Dallas Fort Worth Intl", id := some "DFW", time := some "2026-11-01 08:30" }

def rawApDFWDep : RawAirport :=
  { name := some "Dallas Fort Worth Intl", id := some "DFW", time := some "2026-11-01 09:30" }

def rawApLAX : RawAirport :=
  { name := some "Los Angeles Intl", id := some "LAX", time := some "2026-11-01 11:00" }

/-- ORD → DFW leg; most optional fields absent, to exercise the defaults. -/
def rawSegORDDFW : RawSegment :=
  { airline := some "AA", flight_number := some "AA 100", airplane := none
    travel_class := none, departure_airport := some rawApORD
    arrival_airport := some rawApDFWArr, duration := some 150
    airline_logo := none, legroom := none, overnight := none
    plane_and_crew_by := none, often_delayed_by_over_30_min := none }

/-- DFW → LAX leg. -/
def rawSegDFWLAX : RawSegment :=
  { airline := some "AA", flight_number := some "AA 200", airplane := some "B738"
    travel_class := some "Economy", departure_airport := some rawApDFWDep
    arrival_airport := some rawApLAX, duration := some 90
    airline_logo := none, legroom := none, overnight := none
    plane_and_crew_by := none, often_delayed_by_over_30_min := none }

/-- A DFW-bound leg whose arrival airport lacks `time`: required field absent. -/
def rawApNoTime : RawAirport :=
  { name := some "Dallas Fort Worth Intl", id := some "DFW", time := none }

def rawSegNoTime : RawSegment :=
  { rawSegORDDFW with arrival_airport := some rawApNoTime }

def rawIt1 : RawItinerary :=
  { flights := some [rawSegORDDFW, rawSegDFWLAX], price := some 350
    total_duration := some 240, type := some "One way", airline_logo := none
    carbon_emissions := none }

def rawItEmpty : RawItinerary :=
  { flights := some [], price := some 100, total_duration := some 60
    type := none, airline_logo := none, carbon_emissions := none }

def rawItNoSegs : RawItinerary :=
  { flights := none, price := some 200, total_duration := some 80
    type := none, airline_logo := none, carbon_emissions := none }

def sampleResp : RawResponse :=
  { best_flights := some [rawIt1, rawItEmpty], other_flights := some [rawItNoSegs] }

def sampleParams : SearchParams := mkSearchParams "ORD" "LAX" "2026-11-01" none "INR"

/-- Expected transform of `rawSegORDDFW`. -/
def segORDDFW : Segment :=
  { airline := "AA", flight_number := "AA 100", airplane := "", travel_class := ""
    departure_airport := { name := "O Hare Intl", id := "ORD", time := "2026-11-01 06:00" }
    arrival_airport := { name := "Dallas Fort Worth Intl", id := "DFW", time := "2026-11-01 08:30" }
    duration := 150, airline_logo := "", legroom := "", overnight := false
    plane_and_crew_by := "", often_delayed_by_over_30_min := false }

/-- Expected transform of `rawSegDFWLAX`. -/
def segDFWLAX : Segment :=
  { airline := "AA", flight_number := "AA 200", airplane := "B738", travel_class := "Economy"
    departure_airport := { name := "Dallas Fort Worth Intl", id := "DFW", time := "2026-11-01 09:30" }
    arrival_airport := { name := "Los Angeles Intl", id := "LAX", time := "2026-11-01 11:00" }
    duration := 90, airline_logo := "", legroom := "", overnight := false
    plane_and_crew_by := "", often_delayed_by_over_30_min := false }

/-- Expected transform of `rawIt1`. -/
def fORDLAX : FlightOption :=
  { price := 350, currency := "INR", total_duration := 240, stops := 1
    type := "One way", airline_logo := "", segments := [segORDDFW, segDFWLAX]
    carbon_emissions := []
    departure := { airport := { name := "O Hare Intl", id := "ORD", time := "2026-11-01 06:00" }
                   time := "2026-11-01 06:00" }
    arrival := { airport := { name := "Los Angeles Intl", id := "LAX", time := "2026-11-01 11:00" }
                 time := "2026-11-01 11:00" } }

/-- Expected result of `_transform_flight_data` on `sampleResp`. -/
def sampleRec : SearchRecord :=
  { search_id := "sid-1", timestamp := "ts0", search_params := sampleParams
    flights := [fORDLAX], status := "success" }

/-- A one-segment flight used by the filter fixtures. -/
def testFlight (p d : Int) (tm airline : String) : FlightOption :=
  { price := p, currency := "INR", total_duration := d, stops := 0
    type := "One way", airline_logo := ""
    segments := [{ segORDDFW with airline := airline }]
    carbon_emissions := []
    departure := { airport := { name := "O Hare Intl", id := "ORD", time := tm }, time := tm }
    arrival := { airport := { name := "Los Angeles Intl", id := "LAX", time := "2026-11-01 11:00" }
                 time := "2026-11-01 11:00" } }

def flightA : FlightOption := testFlight 300 240 "06:00" "AA"

/-- Same price as `flightA`, for the stability witness. -/
def flightB : FlightOption := testFlight 300 200 "07:00" "UA"

def flightC : FlightOption := testFlight 800 180 "08:00" "DL"

/-- A stored search holding three flights, as `get_search_results` parses it. -/
def filterDoc : StoredSearch :=
  { timestamp := "ts1"
    results := { search_id := "sid-1", timestamp := "ts0", search_params := sampleParams
                 flights := [flightA, flightB, flightC], status := "success" } }

def filterStore : String → Option StoredSearch :=
  fun s => if s = "sid-1" then some filterDoc else none

def emptySpec : FilterSpec :=
  { search_id := "sid-1", max_price := none, max_duration := none, max_stops := none
    preferred_airlines := none, departure_time_range := none, sort_by := none
    sort_order := none }

def priceSpec : FilterSpec := { emptySpec with max_price := some 500 }

def sortSpec : FilterSpec := { emptySpec with sort_by := some "price", sort_order := some "desc" }

def oddSortSpec : FilterSpec := { emptySpec with sort_by := some "airline" }

/-- Whether an itinerary survives the drop rule of main.py line 109. -/
def hasSegments (it : RawItinerary) : Bool :=
  match it.flights with
  | some (_ :: _) => true
  | _ => false

lemma transformItinerary_fields (params : SearchParams) (it : RawItinerary)
    (s0 : RawSegment) (rest : List RawSegment) (f : FlightOption)
    (h : transformItinerary params it s0 rest = some f) :
    ∃ f0 frest, transformSegment s0 = some f0 ∧ rest.mapM transformSegment = some frest ∧
      f.segments = f0 :: frest ∧
      f.departure = { airport := f0.departure_airport, time := f0.departure_airport.time } ∧
      f.arrival = { airport := (frest.getLastD f0).arrival_airport
                    time := (frest.getLastD f0).arrival_airport.time } := by
  unfold transformItinerary at h
  cases h0 : transformSegment s0 with
  | none => rw [h0] at h; simp at h
  | some f0 =>
    cases hr : rest.mapM transformSegment with
    | none => rw [h0, hr] at h; simp at h
    | some frest =>
      rw [h0, hr] at h
      simp only [Option.some.injEq] at h
      subst h
      exact ⟨f0, frest, rfl, rfl, rfl, rfl, rfl⟩

lemma transformFlights_mem (params : SearchParams) (its : List RawItinerary) :
    ∀ fs, transformFlights params its = some fs → ∀ f, f ∈ fs →
    ∃ it s0 rest, it ∈ its ∧ it.flights = some (s0 :: rest) ∧
      transformItinerary params it s0 rest = some f := by
  induction its with
  | nil =>
    intro fs h f hf
    unfold transformFlights at h
    simp only [Option.some.injEq] at h
    subst h
    simp at hf
  | cons it more ih =>
    intro fs h f hf
    unfold transformFlights at h
    cases hfl : it.flights with
    | none =>
      rw [hfl] at h
      replace h : transformFlights params more = some fs := h
      obtain ⟨it2, s0, rest, hm, hfl2, ht⟩ := ih fs h f hf
      exact ⟨it2, s0, rest, List.mem_cons_of_mem _ hm, hfl2, ht⟩
    | some segs =>
      cases segs with
      | nil =>
        rw [hfl] at h
        replace h : transformFlights params more = some fs := h
        obtain ⟨it2, s0, rest, hm, hfl2, ht⟩ := ih fs h f hf
        exact ⟨it2, s0, rest, List.mem_cons_of_mem _ hm, hfl2, ht⟩
      | cons s0 rest =>
        rw [hfl] at h
        replace h : (match transformItinerary params it s0 rest,
            transformFlights params more with
          | some f, some fs => some (f :: fs)
          | _, _ => none) = some fs := h
        cases hti : transformItinerary params it s0 rest with
        | none => rw [hti] at h; simp at h
        | some f1 =>
          cases hmore : transformFlights params more with
          | none => rw [hti, hmore] at h; simp at h
          | some fs1 =>
            rw [hti, hmore] at h
            replace h : some (f1 :: fs1) = some fs := h
            simp only [Option.some.injEq] at h
            subst h
            rcases List.mem_cons.mp hf with rfl | hrest
            · exact ⟨it, s0, rest, List.mem_cons_self _ _, hfl, hti⟩
            · obtain ⟨it2, s2, r2, hm, hfl2, ht⟩ := ih fs1 hmore f hrest
              exact ⟨it2, s2, r2, List.mem_cons_of_mem _ hm, hfl2, ht⟩

lemma transformFlights_length (params : SearchParams) (its : List RawItinerary) :
    ∀ fs, transformFlights params its = some fs →
    fs.length = its.countP hasSegments := by
  induction its with
  | nil =>
    intro fs h
    unfold transformFlights at h
    simp only [Option.some.injEq] at h
    subst h
    rfl
  | cons it more ih =>
    intro fs h
    unfold transformFlights at h
    rw [List.countP_cons]
    cases hfl : it.flights with
    | none =>
      rw [hfl] at h
      replace h : transformFlights params more = some fs := h
      rw [ih fs h]
      simp [hasSegments, hfl]
    | some segs =>
      cases segs with
      | nil =>
        rw [hfl] at h
        replace h : transformFlights params more = some fs := h
        rw [ih fs h]
        simp [hasSegments, hfl]
      | cons s0 rest =>
        rw [hfl] at h
        replace h : (match transformItinerary params it s0 rest,
            transformFlights params more with
          | some f, some fs => some (f :: fs)
          | _, _ => none) = some fs := h
        cases hti : transformItinerary params it s0 rest with
        | none => rw [hti] at h; simp at h
        | some f1 =>
          cases hmore : transformFlights params more with
          | none => rw [hti, hmore] at h; simp at h
          | some fs1 =>
            rw [hti, hmore] at h
            replace h : some (f1 :: fs1) = some fs := h
            simp only [Option.some.injEq] at h
            subst h
            rw [List.length_cons, ih fs1 hmore]
            simp [hasSegments, hfl]

lemma outFlights_filter_flights (store : String → Option StoredSearch) (spec : FilterSpec)
    (doc : StoredSearch) (hs : store spec.search_id = some doc) :
    outFlights (filter_flights spec store) =
      applySort spec (doc.results.flights.filter (passesFilters spec)) := by
  have h1 : ("filtered_count" : String) ≠ "flights" := by decide
  have h2 : ("total_count" : String) ≠ "flights" := by decide
  simp [filter_flights, hs, outFlights, h1, h2]

lemma passesFilters_max_price (spec : FilterSpec) (P : Int) (f : FlightOption)
    (hp : spec.max_price = some P) :
    passesFilters spec f =
      (decide (f.price ≤ P) && passesFilters { spec with max_price := none } f) := by
  unfold passesFilters
  rw [hp]
  simp [Bool.and_assoc]

lemma pair_sublist_mergeSort_pyLe {β : Type} [LinearOrder β] (key : FlightOption → β)
    (rev : Bool) (a b : FlightOption) (l : List FlightOption)
    (hk : key a = key b) (h : List.Sublist [a, b] l) :
    List.Sublist [a, b] (l.mergeSort (pyLe key rev)) := by
  apply List.pair_sublist_mergeSort (pyLe_trans key rev) (pyLe_total key rev) ?_ h
  cases rev <;> simp [pyLe, hk]

/-- Whether two flights compare equal on the active sort key of a filter spec. -/
def sortKeyTie (spec : FilterSpec) (a b : FlightOption) : Bool :=
  match spec.sort_by with
  | none => true
  | some k =>
    if k = "price" then a.price == b.price
    else if k = "duration" then a.total_duration == b.total_duration
    else if k = "departure_time" then a.departure.time == b.departure.time
    else true

/-- C1: the claim says the stored `search_params` echo the requested currency
C and every produced FlightOption's `currency` equals C. The source instead
writes the literal `"INR"` into `search_params` (main.py line 256), so for the
request currency "USD" the stored parameters and every transformed flight
carry "INR". This theorem evaluates the embedded code at that failing input. -/
theorem search_currency_hardcoded_INR :
    (mkSearchParams "ORD" "LAX" "2026-11-01" none "USD").currency = some "INR" ∧
    (mkSearchParams "ORD" "LAX" "2026-11-01" none "USD").currency ≠ some "USD" ∧
    Option.map (fun rec => rec.search_params.currency)
      (transform_flight_data sampleResp
        (mkSearchParams "ORD" "LAX" "2026-11-01" none "USD") "sid-1" "ts0") =
      some (some "INR") ∧
    Option.map (fun rec => rec.flights.map (fun f => f.currency))
      (transform_flight_data sampleResp
        (mkSearchParams "ORD" "LAX" "2026-11-01" none "USD") "sid-1" "ts0") =
      some ["INR"] := by
  decide

/-- C2 counterexample: saving a record `r` and immediately retrieving it does
not yield `r` itself: `get_search_results` returns the whole stored document,
which is the wrapper `\x7btimestamp, results: r\x7d`, not `r`. Shown here for the
concrete record `r = \x7b\x7d` (an empty JSON object). -/
theorem save_get_not_identical :
    get_search_results
      (save_search_results (fun _ => none) "abc" "2026-10-01T00:00:00" (JVal.jobj []))
      "abc" ≠ some (JVal.jobj []) := by
  simp [get_search_results, save_search_results]

/-- C2 (amended): saving record `r` under id `s` and immediately retrieving by
`s` yields a document whose `results` field is identical to `r` (the document
additionally carries the save timestamp). -/
theorem save_get_results_field (fs : FileStore) (s now : String) (r : JVal) :
    (get_search_results (save_search_results fs s now r) s).bind
      (fun d => d.getField "results") = some r := by
  have h1 : ("results" : String) ≠ "timestamp" := by decide
  simp [get_search_results, save_search_results, JVal.getField, lookupField, h1]

/-- C3 counterexample: on a known identifier the dict returned by
`filter_flights` is not exactly the three entries filtered_count, total_count,
flights — the code appends a fourth entry "storage" (main.py line 391). -/
theorem filter_result_has_storage_key :
    ¬ ∃ fc tc fl, filter_flights emptySpec filterStore =
      [("filtered_count", DVal.num fc), ("total_count", DVal.num tc),
       ("flights", DVal.flights fl)] := by
  intro hcontra
  obtain ⟨fc, tc, fl, h⟩ := hcontra
  have h4 : filter_flights emptySpec filterStore =
      [("filtered_count", DVal.num 3), ("total_count", DVal.num 3),
       ("flights", DVal.flights [flightA, flightB, flightC]),
       ("storage", DVal.path "search_sid-1.json")] := by decide
  rw [h4] at h
  simp at h

/-- C3 (amended): for every filter invocation, an unknown search_id yields
exactly the error dict with the claimed message and no exception; a known id
yields the dict with the claimed entries filtered_count (number of flights
surviving the predicates), total_count (size of the stored unfiltered set) and
flights, plus a fourth entry "storage" holding the record's backing file path. -/
theorem filter_result_shape (store : String → Option StoredSearch) (spec : FilterSpec) :
    (store spec.search_id = none →
      filter_flights spec store =
        [("status", DVal.str "error"),
         ("error", DVal.str "No search results found for the provided search ID")]) ∧
    (∀ doc, store spec.search_id = some doc →
      filter_flights spec store =
        [("filtered_count", DVal.num (doc.results.flights.countP (passesFilters spec))),
         ("total_count", DVal.num doc.results.flights.length),
         ("flights", DVal.flights
            (applySort spec (doc.results.flights.filter (passesFilters spec)))),
         ("storage", DVal.path ("search_" ++ spec.search_id ++ ".json"))]) := by
  constructor
  · intro h
    simp [filter_flights, h]
  · intro doc h
    simp [filter_flights, h, length_applySort, List.countP_eq_length_filter]

def noStore : String → Option StoredSearch := fun _ => none

/-- Witness for C3, at a store that lacks the identifier and one that has it. -/
theorem filter_result_shape_witness :
    noStore emptySpec.search_id = none ∧
    filter_flights emptySpec noStore =
      [("status", DVal.str "error"),
       ("error", DVal.str "No search results found for the provided search ID")] ∧
    filterStore emptySpec.search_id = some filterDoc ∧
    filter_flights emptySpec filterStore =
      [("filtered_count", DVal.num (filterDoc.results.flights.countP (passesFilters emptySpec))),
       ("total_count", DVal.num filterDoc.results.flights.length),
       ("flights", DVal.flights
          (applySort emptySpec (filterDoc.results.flights.filter (passesFilters emptySpec)))),
       ("storage", DVal.path ("search_" ++ emptySpec.search_id ++ ".json"))] :=
  ⟨rfl, (filter_result_shape noStore emptySpec).1 rfl, by decide,
   (filter_result_shape filterStore emptySpec).2 filterDoc (by decide)⟩

/-- C4: with `max_price = P`, every flight in the filter output has
`price ≤ P`, and every stored flight with `price ≤ P` that passes all the
other active predicates of the spec appears in the output. -/
theorem max_price_filter_conjunction (store : String → Option StoredSearch)
    (spec : FilterSpec) (P : Int) (doc : StoredSearch) (f : FlightOption)
    (hs : store spec.search_id = some doc) (hp : spec.max_price = some P) :
    (f ∈ outFlights (filter_flights spec store) → f.price ≤ P) ∧
    (f ∈ doc.results.flights → f.price ≤ P →
      passesFilters { spec with max_price := none } f = true →
      f ∈ outFlights (filter_flights spec store)) := by
  rw [outFlights_filter_flights store spec doc hs]
  constructor
  · intro hf
    rw [mem_applySort, List.mem_filter] at hf
    have hp2 := hf.2
    rw [passesFilters_max_price spec P f hp] at hp2
    simp only [Bool.and_eq_true, decide_eq_true_eq] at hp2
    exact hp2.1
  · intro hmem hple hothers
    rw [mem_applySort, List.mem_filter]
    refine ⟨hmem, ?_⟩
    rw [passesFilters_max_price spec P f hp]
    simp [hothers, hple]

/-- Witness for C4 at a concrete store and price cap. -/
theorem max_price_filter_conjunction_witness :
    filterStore priceSpec.search_id = some filterDoc ∧
    priceSpec.max_price = some 500 ∧
    ((flightA ∈ outFlights (filter_flights priceSpec filterStore) → flightA.price ≤ 500) ∧
     (flightA ∈ filterDoc.results.flights → flightA.price ≤ 500 →
       passesFilters { priceSpec with max_price := none } flightA = true →
       flightA ∈ outFlights (filter_flights priceSpec filterStore))) :=
  ⟨by decide, by decide,
   max_price_filter_conjunction filterStore priceSpec 500 filterDoc flightA
     (by decide) (by decide)⟩

/-- C10: a present but unrecognized `sort_by` value is silently ignored: the
filter invocation still returns the success dict and the surviving flights
keep their original stored order. -/
theorem unrecognized_sort_key_ignored (store : String → Option StoredSearch)
    (spec : FilterSpec) (doc : StoredSearch) (k : String)
    (hs : store spec.search_id = some doc) (hk : spec.sort_by = some k)
    (h1 : k ≠ "price") (h2 : k ≠ "duration") (h3 : k ≠ "departure_time") :
    filter_flights spec store =
      [("filtered_count", DVal.num ((doc.results.flights.filter (passesFilters spec)).length)),
       ("total_count", DVal.num doc.results.flights.length),
       ("flights", DVal.flights (doc.results.flights.filter (passesFilters spec))),
       ("storage", DVal.path ("search_" ++ spec.search_id ++ ".json"))] := by
  have hsort : applySort spec (doc.results.flights.filter (passesFilters spec)) =
      doc.results.flights.filter (passesFilters spec) := by
    unfold applySort
    rw [hk]
    simp [h1, h2, h3]
  simp [filter_flights, hs, hsort]

/-- Witness for C10 with the unrecognized sort key "airline". -/
theorem unrecognized_sort_key_ignored_witness :
    filterStore oddSortSpec.search_id = some filterDoc ∧
    oddSortSpec.sort_by = some "airline" ∧
    ("airline" : String) ≠ "price" ∧
    ("airline" : String) ≠ "duration" ∧
    ("airline" : String) ≠ "departure_time" ∧
    filter_flights oddSortSpec filterStore =
      [("filtered_count",
        DVal.num ((filterDoc.results.flights.filter (passesFilters oddSortSpec)).length)),
       ("total_count", DVal.num filterDoc.results.flights.length),
       ("flights", DVal.flights (filterDoc.results.flights.filter (passesFilters oddSortSpec))),
       ("storage", DVal.path ("search_" ++ oddSortSpec.search_id ++ ".json"))] :=
  ⟨by decide, by decide, by decide, by decide, by decide,
   unrecognized_sort_key_ignored filterStore oddSortSpec filterDoc "airline"
     (by decide) (by decide) (by decide) (by decide) (by decide)⟩

/-- C5: the sorting step is stable for every recognized sort key and both sort
orders: two surviving flights that compare equal on the active sort key keep
their relative order (stated as preservation of the two-element sublist). -/
theorem sort_stability (store : String → Option StoredSearch) (spec : FilterSpec)
    (doc : StoredSearch) (a b : FlightOption)
    (hs : store spec.search_id = some doc)
    (htie : sortKeyTie spec a b = true)
    (hsub : List.Sublist [a, b] (doc.results.flights.filter (passesFilters spec))) :
    List.Sublist [a, b] (outFlights (filter_flights spec store)) := by
  rw [outFlights_filter_flights store spec doc hs]
  unfold applySort
  unfold sortKeyTie at htie
  cases hsb : spec.sort_by with
  | none => exact hsub
  | some k =>
    rw [hsb] at htie
    by_cases h1 : k = "price"
    · subst h1
      have htie2 : a.price = b.price := by simpa using htie
      have hres := pair_sublist_mergeSort_pyLe (fun x => x.price)
        (spec.sort_order.getD "asc" == "desc") a b
        (doc.results.flights.filter (passesFilters spec)) htie2 hsub
      simpa using hres
    · by_cases h2 : k = "duration"
      · subst h2
        have hne1 : ("duration" : String) ≠ "price" := by decide
        have htie2 : a.total_duration = b.total_duration := by simpa [hne1] using htie
        have hres := pair_sublist_mergeSort_pyLe (fun x => x.total_duration)
          (spec.sort_order.getD "asc" == "desc") a b
          (doc.results.flights.filter (passesFilters spec)) htie2 hsub
        simpa [hne1] using hres
      · by_cases h3 : k = "departure_time"
        · subst h3
          have hne1 : ("departure_time" : String) ≠ "price" := by decide
          have hne2 : ("departure_time" : String) ≠ "duration" := by decide
          have htie2 : a.departure.time = b.departure.time := by
            simpa [hne1, hne2] using htie
          have hres := pair_sublist_mergeSort_pyLe (fun x => x.departure.time)
            (spec.sort_order.getD "asc" == "desc") a b
            (doc.results.flights.filter (passesFilters spec)) htie2 hsub
          simpa [hne1, hne2] using hres
        · simpa [h1, h2, h3] using hsub

/-- Witness for C5: two equal-priced flights, sorted by price, descending. -/
theorem sort_stability_witness :
    filterStore sortSpec.search_id = some filterDoc ∧
    sortKeyTie sortSpec flightA flightB = true ∧
    List.Sublist [flightA, flightB]
      (filterDoc.results.flights.filter (passesFilters sortSpec)) ∧
    List.Sublist [flightA, flightB] (outFlights (filter_flights sortSpec filterStore)) :=
  ⟨by decide, by decide, by decide,
   sort_stability filterStore sortSpec filterDoc flightA flightB
     (by decide) (by decide) (by decide)⟩

/-- C6: every FlightOption produced by the transform has at least one segment,
its `departure` equals the first segment's departure airport and time, and its
`arrival` equals the last segment's arrival airport and time. -/
theorem derived_endpoint_invariant (params : SearchParams) (its : List RawItinerary)
    (fs : List FlightOption) (h : transformFlights params its = some fs)
    (f : FlightOption) (hf : f ∈ fs) :
    f.segments ≠ [] ∧
    (∀ s0, f.segments.head? = some s0 →
      f.departure = { airport := s0.departure_airport, time := s0.departure_airport.time }) ∧
    (∀ sl, f.segments.getLast? = some sl →
      f.arrival = { airport := sl.arrival_airport, time := sl.arrival_airport.time }) := by
  obtain ⟨it, s0r, rest, hm, hfl, hti⟩ := transformFlights_mem params its fs h f hf
  obtain ⟨f0, frest, h1, h2, hseg, hdep, harr⟩ :=
    transformItinerary_fields params it s0r rest f hti
  refine ⟨by rw [hseg]; simp, ?_, ?_⟩
  · intro s0 hs0
    rw [hseg] at hs0
    simp only [List.head?_cons, Option.some.injEq] at hs0
    subst hs0
    exact hdep
  · intro sl hsl
    rw [hseg, getLast?_cons_getLastD] at hsl
    simp only [Option.some.injEq] at hsl
    subst hsl
    exact harr

/-- Witness for C6 at the two-segment ORD → DFW → LAX itinerary. -/
theorem derived_endpoint_invariant_witness :
    transformFlights sampleParams [rawIt1] = some [fORDLAX] ∧
    fORDLAX ∈ [fORDLAX] ∧
    (fORDLAX.segments ≠ [] ∧
     (∀ s0, fORDLAX.segments.head? = some s0 →
       fORDLAX.departure = { airport := s0.departure_airport
                             time := s0.departure_airport.time }) ∧
     (∀ sl, fORDLAX.segments.getLast? = some sl →
       fORDLAX.arrival = { airport := sl.arrival_airport
                           time := sl.arrival_airport.time })) :=
  ⟨by decide, by decide,
   derived_endpoint_invariant sampleParams [rawIt1] [fORDLAX] (by decide) fORDLAX (by decide)⟩

/-- C7: after the sweep, a parseable document strictly older than the window
is gone (when its deletion succeeds), a document within the window survives,
and a document whose read or parse fails is skipped and survives; the first
conjunct characterizes the whole sweep as an independent per-file filter, so
one bad entry never aborts the remaining deletions. -/
theorem cleanup_expiry_and_resilience (now h : Int) (files : List StoredFile)
    (f : StoredFile) (hf : f ∈ files) :
    cleanup_old_searches now h files = files.filter (cleanupKeeps now h) ∧
    (∀ t, f.parsedTimestamp = some t → now - t > h * 3600 → f.unlinkOk = true →
      f ∉ cleanup_old_searches now h files) ∧
    (∀ t, f.parsedTimestamp = some t → now - t ≤ h * 3600 →
      f ∈ cleanup_old_searches now h files) ∧
    (f.parsedTimestamp = none → f ∈ cleanup_old_searches now h files) := by
  refine ⟨cleanup_eq_filter now h files, ?_, ?_, ?_⟩
  · intro t hp hold hu hmem
    rw [cleanup_eq_filter] at hmem
    have hk := (List.mem_filter.mp hmem).2
    simp [cleanupKeeps, hp, hold, hu] at hk
  · intro t hp hy
    rw [cleanup_eq_filter]
    have hnot : ¬ (now - t > h * 3600) := not_lt.mpr hy
    exact List.mem_filter.mpr ⟨hf, by simp [cleanupKeeps, hp, hnot]⟩
  · intro hp
    rw [cleanup_eq_filter]
    exact List.mem_filter.mpr ⟨hf, by simp [cleanupKeeps, hp]⟩

def oldFile : StoredFile := { parsedTimestamp := some 0, unlinkOk := true }

def youngFile : StoredFile := { parsedTimestamp := some 99000, unlinkOk := true }

def badFile : StoredFile := { parsedTimestamp := none, unlinkOk := true }

def stuckFile : StoredFile := { parsedTimestamp := some 0, unlinkOk := false }

def sweepFiles : List StoredFile := [oldFile, youngFile, badFile, stuckFile]

/-- Witness for C7: sweep at time 100000 with a 1-hour window. -/
theorem cleanup_expiry_and_resilience_witness :
    oldFile ∈ sweepFiles ∧
    oldFile ∉ cleanup_old_searches 100000 1 sweepFiles ∧
    youngFile ∈ cleanup_old_searches 100000 1 sweepFiles ∧
    badFile ∈ cleanup_old_searches 100000 1 sweepFiles :=
  ⟨by decide,
   (cleanup_expiry_and_resilience 100000 1 sweepFiles oldFile (by decide)).2.1
     0 rfl (by decide) rfl,
   (cleanup_expiry_and_resilience 100000 1 sweepFiles youngFile (by decide)).2.2.1
     99000 rfl (by decide),
   (cleanup_expiry_and_resilience 100000 1 sweepFiles badFile (by decide)).2.2.2 rfl⟩

/-- C8: during the transform of one segment whose airport objects are present,
absence of any of `name`, `id`, `time` on either airport is a hard failure
(the iff), while with the six required fields present the segment transforms
successfully whatever the other fields are, each absent one replaced by its
default (the second conjunct). -/
theorem segment_required_airport_fields (s : RawSegment) (dep arr : RawAirport)
    (hd : s.departure_airport = some dep) (ha : s.arrival_airport = some arr) :
    (transformSegment s = none ↔
      (dep.name = none ∨ dep.id = none ∨ dep.time = none ∨
       arr.name = none ∨ arr.id = none ∨ arr.time = none)) ∧
    (∀ dn di dt an ai tt,
      dep = { name := some dn, id := some di, time := some dt } →
      arr = { name := some an, id := some ai, time := some tt } →
      transformSegment s = some
        { airline := s.airline.getD ""
          flight_number := s.flight_number.getD ""
          airplane := s.airplane.getD ""
          travel_class := s.travel_class.getD ""
          departure_airport := { name := dn, id := di, time := dt }
          arrival_airport := { name := an, id := ai, time := tt }
          duration := s.duration.getD 0
          airline_logo := s.airline_logo.getD ""
          legroom := s.legroom.getD ""
          overnight := s.overnight.getD false
          plane_and_crew_by := s.plane_and_crew_by.getD ""
          often_delayed_by_over_30_min := s.often_delayed_by_over_30_min.getD false }) := by
  constructor
  · unfold transformSegment transformAirport
    rw [hd, ha]
    rcases dep with ⟨dn, di, dt⟩
    rcases arr with ⟨an, ai, tt⟩
    cases dn <;> cases di <;> cases dt <;> cases an <;> cases ai <;> cases tt <;> simp
  · intro dn di dt an ai tt hdep harr
    subst hdep harr
    unfold transformSegment transformAirport
    rw [hd, ha]

/-- Witness for C8: a segment whose arrival airport lacks `time` fails; the
ORD → DFW segment with several optional fields absent succeeds with defaults. -/
theorem segment_required_airport_fields_witness :
    rawSegNoTime.departure_airport = some rawApORD ∧
    rawSegNoTime.arrival_airport = some rawApNoTime ∧
    transformSegment rawSegNoTime = none ∧
    rawSegORDDFW.departure_airport = some rawApORD ∧
    rawSegORDDFW.arrival_airport = some rawApDFWArr ∧
    transformSegment rawSegORDDFW = some segORDDFW :=
  ⟨rfl, rfl,
   (segment_required_airport_fields rawSegNoTime rawApORD rawApNoTime rfl rfl).1.mpr
     (by decide),
   rfl, rfl,
   (segment_required_airport_fields rawSegORDDFW rawApORD rawApDFWArr rfl rfl).2
     "O Hare Intl" "ORD" "2026-11-01 06:00"
     "Dallas Fort Worth Intl" "DFW" "2026-11-01 08:30" rfl rfl⟩

/-- C9: the transformed record holds exactly one FlightOption per itinerary
with a nonempty segment list; the `flights_count` reported by the search
success result equals that number, and no output flight is segmentless. -/
theorem drop_rule_flights_count (resp : RawResponse) (params : SearchParams)
    (sid ts currency dir : String) (rec : SearchRecord)
    (h : transform_flight_data resp params sid ts = some rec) :
    rec.flights.length = (allFlights resp).countP hasSegments ∧
    (searchSuccess rec currency dir).flights_count = (allFlights resp).countP hasSegments ∧
    ∀ f ∈ rec.flights, f.segments ≠ [] := by
  unfold transform_flight_data at h
  cases htf : transformFlights params (allFlights resp) with
  | none => rw [htf] at h; simp at h
  | some fs =>
    rw [htf] at h
    replace h : some ({ search_id := sid, timestamp := ts, search_params := params
                        flights := fs, status := "success" } : SearchRecord) = some rec := h
    simp only [Option.some.injEq] at h
    subst h
    refine ⟨transformFlights_length params (allFlights resp) fs htf,
            transformFlights_length params (allFlights resp) fs htf, ?_⟩
    intro f hf
    obtain ⟨it, s0, rest, hm, hfl, hti⟩ :=
      transformFlights_mem params (allFlights resp) fs htf f hf
    obtain ⟨f0, frest, h1, h2, hseg, hdep2, harr2⟩ :=
      transformItinerary_fields params it s0 rest f hti
    rw [hseg]
    simp

/-- Witness for C9: the payload has one two-segment itinerary, one itinerary
with an empty segment list and one without the key; only one flight results. -/
theorem drop_rule_flights_count_witness :
    transform_flight_data sampleResp sampleParams "sid-1" "ts0" = some sampleRec ∧
    (sampleRec.flights.length = (allFlights sampleResp).countP hasSegments ∧
     (searchSuccess sampleRec "INR" "flight_search_dir").flights_count =
       (allFlights sampleResp).countP hasSegments ∧
     ∀ f ∈ sampleRec.flights, f.segments ≠ []) :=
  ⟨by decide,
   drop_rule_flights_count sampleResp sampleParams "sid-1" "ts0" "INR"
     "flight_search_dir" sampleRec (by decide)⟩
